import Mathlib

/-!
Verification of the voicebot2 voice session orchestrator against its
natural-language specification.  The definitions below are shallow
embeddings of the TypeScript sources:

* `Voicebot.handleSilence`, `Voicebot.handleSpeech`, `Voicebot.intervalTick`,
  `Voicebot.detectorStop` — src/services/audio/silence-detector.service.ts.
  Crucially, the interval callback in that file passes a fresh object
  literal `{ isSilent, silenceTimer, silenceDetectedFlag, isRunning }` to
  `handleSilence` and `handleSpeech` each tick, so field writes made by the
  handlers land on the per-tick copy and never reach the closure variables;
  only the return value of `handleSilence` is written back (to
  `silenceTimer`).  The embedding mirrors this: handlers operate on a
  `HandlerState` value built from the closure, and only the documented
  write-backs are applied.
* `Voicebot.legacyTick` — the earlier detector implementation kept in the
  repository (unnamed part_000), which mutates the closure variables
  directly.
* `Voicebot.handleStartRecording`, `Voicebot.handleSendMessagePrefix`,
  `Voicebot.processAudioTurn`, `Voicebot.responsePlayer` —
  src/components/VoiceChat/VoiceChatInterface.tsx; `Voicebot.canRecord` —
  src/hooks/ui/use-voice-state.ts; the VoiceChat variant (unnamed
  part_004) is embedded alongside.
* `Voicebot.recorderCleanup` — src/services/audio/recorder.service.ts;
  `Voicebot.detectorCleanup` — silence-detector.service.ts cleanup.
* `Voicebot.sendAudioToGPT4o`, `Voicebot.extractGPT4oResponse` —
  src/lib/openai.ts and the openai service (unnamed part_006), with the
  two network calls abstracted as oracle outcomes.

Times are in milliseconds as `Nat`; audio levels are exact rationals
(written with `mkRat`); JavaScript string trimming is modelled by
`Voicebot.jsTrim`.
-/

namespace Voicebot

/-! ## Definitions -/

/-- Events delivered to the silence-detector listeners
(`onSilenceDetected` / `onSpeechDetected`). -/
inductive DetectorEvent where
  | silenceDetected
  | speechDetected
  deriving DecidableEq, Repr

/-- Detector configuration (silence-detector.service.ts lines 12-19,
defaults at lines 218-222). -/
structure DetectorOptions where
  silenceThreshold : ℚ
  silenceDuration : Nat
  checkInterval : Nat
  deriving DecidableEq, Repr

/-- isAudioSilent (silence-detector.service.ts line 132): a level strictly
below the threshold counts as silence. -/
def isAudioSilent (audioLevel threshold : ℚ) : Bool :=
  audioLevel < threshold

/-- JavaScript `a || b` on numbers, used for `options.silenceDuration || 5000`
(silence-detector.service.ts line 175): 0 is falsy. -/
def jsOrDefault (n fallbackValue : Nat) : Nat :=
  if n = 0 then fallbackValue else n

/-- JavaScript whitespace characters relevant here (space, tab, newline,
carriage return). -/
def jsIsWhitespace (c : Char) : Bool :=
  c = ' ' || c = '\t' || c = '\n' || c = '\r'

/-- JavaScript `String.prototype.trim`: remove leading and trailing
whitespace. -/
def jsTrim (s : String) : String :=
  String.mk (((s.toList.dropWhile jsIsWhitespace).reverse.dropWhile
    jsIsWhitespace).reverse)

/-- The state object handed to `handleSilence` (and, projected, to
`handleSpeech`): in the source it is a fresh object literal built from the
closure variables at every tick (lines 294 and 299), i.e. a value copy. -/
structure HandlerState where
  isSilent : Bool
  silenceTimer : Option Nat
  silenceDetectedFlag : Bool
  isRunning : Bool
  deriving DecidableEq, Repr

/-- Result of one `handleSilence` call: the (possibly mutated) state object,
the returned timer id (written back to the closure variable
`silenceTimer`), whether `onSilenceDetected` fired synchronously
(immediate mode), and the state object captured by a newly armed
`setTimeout`, if one was armed. -/
structure HandleSilenceResult where
  state : HandlerState
  ret : Option Nat
  firedNow : Bool
  armed : Option HandlerState
  deriving DecidableEq, Repr

/-- handleSilence (silence-detector.service.ts lines 144-179).  `freshId` is
the id the runtime assigns to a newly armed timer. -/
def handleSilence (freshId : Nat) (st : HandlerState) (opts : DetectorOptions) :
    HandleSilenceResult :=
  if !st.isSilent then
    let st1 := { st with isSilent := true }
    if opts.silenceDuration = 0 then
      if st1.isRunning && !st1.silenceDetectedFlag then
        { state := { st1 with silenceDetectedFlag := true }, ret := none,
          firedNow := true, armed := none }
      else
        { state := st1, ret := none, firedNow := false, armed := none }
    else
      { state := st1, ret := some freshId, firedNow := false, armed := some st1 }
  else
    { state := st, ret := st.silenceTimer, firedNow := false, armed := none }

/-- Guard of the setTimeout callback armed by `handleSilence`
(lines 169-175): it fires the silence event iff the captured state object
still has `isRunning` true and `silenceDetectedFlag` false. -/
def timerCallbackFires (captured : HandlerState) : Bool :=
  captured.isRunning && !captured.silenceDetectedFlag

/-- Result of one `handleSpeech` call (lines 186-204): the new `isSilent`
field of the state object, the timer cleared via clearTimeout (if any), and
whether `onSpeechDetected` fired. -/
structure HandleSpeechResult where
  isSilent : Bool
  clearedTimer : Option Nat
  firedSpeech : Bool
  deriving DecidableEq, Repr

/-- handleSpeech (silence-detector.service.ts lines 186-204), acting on the
state object fields it receives. -/
def handleSpeech (isSilent : Bool) (silenceTimer : Option Nat) :
    HandleSpeechResult :=
  if isSilent then
    { isSilent := false, clearedTimer := silenceTimer, firedSpeech := true }
  else
    { isSilent := isSilent, clearedTimer := none, firedSpeech := false }

/-- The closure variables of `createSilenceDetector` relevant to a run
(lines 231-236). -/
structure DetectorClosure where
  isSilent : Bool
  silenceTimer : Option Nat
  silenceDetectedFlag : Bool
  isRunning : Bool
  deriving DecidableEq, Repr

/-- A scheduled setTimeout: its id, absolute due time, and the state object
captured by its callback. -/
structure ArmedTimer where
  id : Nat
  fireAt : Nat
  captured : HandlerState
  deriving DecidableEq, Repr

/-- Whole-run state: the closure variables, the timers armed and not yet
fired or cancelled, the next fresh timer id, and the listener events
observed so far (with their absolute times). -/
structure RunState where
  closure : DetectorClosure
  pending : List ArmedTimer
  nextId : Nat
  events : List (Nat × DetectorEvent)
  deriving DecidableEq, Repr

/-- Deliver one due timer: its callback runs the guard of lines 170-174 on
the captured state object and fires `onSilenceDetected` when it passes. -/
def fireTimer (s : RunState) (t : ArmedTimer) : RunState :=
  if timerCallbackFires t.captured then
    { s with events := s.events ++ [(t.fireAt, DetectorEvent.silenceDetected)] }
  else s

/-- Deliver every pending timer due strictly before `now`, in arming order
(the spec resolves a timer firing on the exact tick a sample arrives by
processing the sample first, so equal-time timers wait). -/
def fireDueBefore (now : Nat) (s : RunState) : RunState :=
  let due := s.pending.filter (fun t => decide (t.fireAt < now))
  let rest := s.pending.filter (fun t => !decide (t.fireAt < now))
  due.foldl fireTimer { s with pending := rest }

/-- One execution of the setInterval callback (lines 281-301) at absolute
time `now`, reading level `level`.  A fresh `HandlerState` is built from the
closure (the object literal of lines 294 and 299); the only write-back the
source performs is `silenceTimer = handleSilence(...)`.  In particular the
`isSilent` and `silenceDetectedFlag` closure variables are never updated
here, exactly as in the source. -/
def intervalTick (opts : DetectorOptions) (now : Nat) (level : ℚ)
    (s : RunState) : RunState :=
  if !s.closure.isRunning then s
  else if isAudioSilent level opts.silenceThreshold then
    let temp : HandlerState :=
      { isSilent := s.closure.isSilent, silenceTimer := s.closure.silenceTimer,
        silenceDetectedFlag := s.closure.silenceDetectedFlag,
        isRunning := s.closure.isRunning }
    let r := handleSilence s.nextId temp opts
    let armedTimers : List ArmedTimer :=
      match r.armed with
      | some cap =>
          [{ id := s.nextId,
             fireAt := now + jsOrDefault opts.silenceDuration 5000,
             captured := cap }]
      | none => []
    { closure := { s.closure with silenceTimer := r.ret },
      pending := s.pending ++ armedTimers,
      nextId := s.nextId + (if r.armed.isSome then 1 else 0),
      events := s.events ++
        (if r.firedNow then [(now, DetectorEvent.silenceDetected)] else []) }
  else
    let r := handleSpeech s.closure.isSilent s.closure.silenceTimer
    let pending1 :=
      match r.clearedTimer with
      | some tid => s.pending.filter (fun t => !decide (t.id = tid))
      | none => s.pending
    { s with pending := pending1,
             events := s.events ++
               (if r.firedSpeech then [(now, DetectorEvent.speechDetected)] else []) }

/-- One sampling tick: timers due before the tick fire first, then the
interval callback processes the sample. -/
def detectorTick (opts : DetectorOptions) (now : Nat) (level : ℚ)
    (s : RunState) : RunState :=
  intervalTick opts now level (fireDueBefore now s)

/-- Closure state right after `start()` (lines 269-278): running, not
silent, flag cleared, no timer. -/
def startedClosure : DetectorClosure :=
  { isSilent := false, silenceTimer := none, silenceDetectedFlag := false,
    isRunning := true }

/-- Run state right after `start()`. -/
def startedRun : RunState :=
  { closure := startedClosure, pending := [], nextId := 0, events := [] }

/-- Process a list of level samples from a fresh `start()`; the i-th sample
(0-based) is read at absolute time `(i+1) * checkInterval`. -/
def runSamples (opts : DetectorOptions) (samples : List ℚ) : RunState :=
  samples.enum.foldl
    (fun s p => detectorTick opts ((p.1 + 1) * opts.checkInterval) p.2 s)
    startedRun

/-- stop() (silence-detector.service.ts lines 307-319): clears the sampling
interval, sets `isRunning` to false, and clears the single timer referenced
by the closure variable `silenceTimer` (earlier armed timers are not
referenced by any variable and stay scheduled). -/
def detectorStop (s : RunState) : RunState :=
  let pending1 :=
    match s.closure.silenceTimer with
    | some tid => s.pending.filter (fun t => !decide (t.id = tid))
    | none => s.pending
  { s with
      closure := { s.closure with isRunning := false, silenceTimer := none },
      pending := pending1 }

/-- Let every still-scheduled timer reach its due time and run its
callback. -/
def drainTimers (s : RunState) : RunState :=
  s.pending.foldl fireTimer { s with pending := [] }

/-- Number of `onSilenceDetected` invocations recorded in a run state. -/
def silenceEventCount (s : RunState) : Nat :=
  (s.events.filter (fun e => decide (e.2 = DetectorEvent.silenceDetected))).length

/-- Number of `onSpeechDetected` invocations recorded in a run state. -/
def speechEventCount (s : RunState) : Nat :=
  (s.events.filter (fun e => decide (e.2 = DetectorEvent.speechDetected))).length

/-- The options used by the orchestrator and by the spec scenarios:
threshold 0.05, silenceDuration 5000 ms, checkInterval 100 ms. -/
def defaultOpts : DetectorOptions :=
  { silenceThreshold := mkRat 1 20, silenceDuration := 5000, checkInterval := 100 }

/-- The C2 scenario: a period at level 0.5 followed by 50 consecutive
samples at level 0.01. -/
def scenarioLoudThenQuiet : List ℚ :=
  List.replicate 3 (mkRat 1 2) ++ List.replicate 50 (mkRat 1 100)

/-- Closure state of the part_000 detector during a run, together with the
events fired so far.  `silenceTimer` holds the due time of the armed
timeout; a fired timeout is modelled as `none` (clearTimeout on an already
fired handle is a no-op, so this is observationally equivalent). -/
structure LegacyState where
  isSilent : Bool
  silenceTimer : Option Nat
  silenceDetectedFlag : Bool
  isRunning : Bool
  events : List (Nat × DetectorEvent)
  deriving DecidableEq, Repr

/-- The part_000 timeout callback (lines 128-136): it reads the shared
closure variables at fire time, so it is guarded by the current
`isRunning` and `silenceDetectedFlag`. -/
def legacyFire (s : LegacyState) (f : Nat) : LegacyState :=
  if s.isRunning && !s.silenceDetectedFlag then
    { s with silenceDetectedFlag := true, silenceTimer := none,
             events := s.events ++ [(f, DetectorEvent.silenceDetected)] }
  else
    { s with silenceTimer := none }

/-- Deliver the armed timeout if it is due strictly before `now` (the
sample owns the tick on equal times). -/
def legacyDue (now : Nat) (s : LegacyState) : LegacyState :=
  match s.silenceTimer with
  | some f => if f < now then legacyFire s f else s
  | none => s

/-- The part_000 interval callback body (lines 98-153) at time `now`. -/
def legacySample (opts : DetectorOptions) (now : Nat) (level : ℚ)
    (s : LegacyState) : LegacyState :=
  if !s.isRunning then s
  else if isAudioSilent level opts.silenceThreshold then
    if !s.isSilent then
      if opts.silenceDuration = 0 then
        if s.isRunning && !s.silenceDetectedFlag then
          { s with isSilent := true, silenceDetectedFlag := true,
                   events := s.events ++ [(now, DetectorEvent.silenceDetected)] }
        else
          { s with isSilent := true }
      else
        { s with isSilent := true,
                 silenceTimer := some (now + opts.silenceDuration) }
    else s
  else
    if s.isSilent then
      { s with isSilent := false, silenceTimer := none,
               events := s.events ++ [(now, DetectorEvent.speechDetected)] }
    else s

/-- One sampling tick of the part_000 detector. -/
def legacyTick (opts : DetectorOptions) (now : Nat) (level : ℚ)
    (s : LegacyState) : LegacyState :=
  legacySample opts now level (legacyDue now s)

/-- Part_000 closure right after `start()` (lines 78-92). -/
def legacyStart : LegacyState :=
  { isSilent := false, silenceTimer := none, silenceDetectedFlag := false,
    isRunning := true, events := [] }

/-- Run the part_000 detector over a sample list from a fresh start. -/
def legacyRun (opts : DetectorOptions) (samples : List ℚ) : LegacyState :=
  samples.enum.foldl
    (fun s p => legacyTick opts ((p.1 + 1) * opts.checkInterval) p.2 s)
    legacyStart

/-- Part_000 stop() (lines 157-169): stops sampling and clears the armed
timeout. -/
def legacyStop (s : LegacyState) : LegacyState :=
  { s with isRunning := false, silenceTimer := none }

/-- Let a still-armed part_000 timeout reach its due time. -/
def legacyDrain (s : LegacyState) : LegacyState :=
  match s.silenceTimer with
  | some f => legacyFire s f
  | none => s

/-- Number of `onSilenceDetected` invocations of the part_000 detector. -/
def legacySilenceCount (s : LegacyState) : Nat :=
  (s.events.filter (fun e => decide (e.2 = DetectorEvent.silenceDetected))).length

/-- Number of `onSpeechDetected` invocations of the part_000 detector. -/
def legacySpeechCount (s : LegacyState) : Nat :=
  (s.events.filter (fun e => decide (e.2 = DetectorEvent.speechDetected))).length

/-- Latch invariant of the part_000 detector: the silence edge has fired
exactly as often as the `silenceDetectedFlag` latch records. -/
def legacyInv (s : LegacyState) : Prop :=
  legacySilenceCount s = if s.silenceDetectedFlag then 1 else 0

/-- Session states of the voice UI (VoiceChatInterface.tsx line 16 and
use-voice-state.ts lines 12-17). -/
inductive VoiceState where
  | idle
  | recording
  | processing
  | speaking
  | error
  deriving DecidableEq, Repr

/-- Message status (VoiceChatInterface.tsx line 23). -/
inductive MsgStatus where
  | sending
  | sent
  | error
  deriving DecidableEq, Repr

/-- Message sender (VoiceChatInterface.tsx line 21). -/
inductive Sender where
  | user
  | ai
  deriving DecidableEq, Repr

/-- One conversation entry (the Message type of VoiceChatInterface.tsx
lines 18-25); the id and timestamp fields are irrelevant to the claims and
omitted. -/
structure Message where
  content : String
  sender : Sender
  status : Option MsgStatus
  errorMessage : Option String
  deriving DecidableEq, Repr

/-- Role of a wire-format chat message (openai.ts line 15). -/
inductive Role where
  | user
  | assistant
  | system
  deriving DecidableEq, Repr

/-- A wire-format chat message as produced by formatConversationHistory
(the audio field is never set there). -/
structure ChatMsg where
  role : Role
  content : String
  deriving DecidableEq, Repr

/-- The simplified message shape taken by formatConversationHistory
(openai.ts lines 332-339 / part_006 lines 463-470). -/
structure SimpleMessage where
  content : String
  sender : Sender
  deriving DecidableEq, Repr

/-- formatConversationHistory (openai.ts lines 332-339): user stays user,
everything else becomes assistant. -/
def formatConversationHistory (msgs : List SimpleMessage) : List ChatMsg :=
  msgs.map (fun m =>
    { role := if m.sender = Sender.user then Role.user else Role.assistant,
      content := m.content })

/-- History passed by the audio pipeline of VoiceChatInterface
(processAudioAndGetResponse, lines 143-150): prior entries whose status is
neither sending nor error. -/
def audioPipelineHistory (prior : List Message) : List ChatMsg :=
  formatConversationHistory
    ((prior.filter (fun m =>
        !decide (m.status = some MsgStatus.sending) &&
        !decide (m.status = some MsgStatus.error))).map
      (fun m => { content := m.content, sender := m.sender }))

/-- History passed by the text pipeline of VoiceChatInterface
(handleSendMessage, lines 288-295): only entries with status error are
excluded. -/
def textPipelineHistory (prior : List Message) : List ChatMsg :=
  formatConversationHistory
    ((prior.filter (fun m => !decide (m.status = some MsgStatus.error))).map
      (fun m => { content := m.content, sender := m.sender }))

/-- History passed by both pipelines of the VoiceChat variant (part_004
lines 117-122 and 164-169): status sending and error are both excluded. -/
def vcPipelineHistory (prior : List Message) : List ChatMsg :=
  formatConversationHistory
    ((prior.filter (fun m =>
        !decide (m.status = some MsgStatus.sending) &&
        !decide (m.status = some MsgStatus.error))).map
      (fun m => { content := m.content, sender := m.sender }))

/-- The history the claim describes, written from the spec words: exactly
the prior entries whose status is neither sending nor error. -/
def claimedHistory (prior : List Message) : List ChatMsg :=
  formatConversationHistory
    ((prior.filter (fun m =>
        decide (m.status ≠ some MsgStatus.sending ∧
                m.status ≠ some MsgStatus.error))).map
      (fun m => { content := m.content, sender := m.sender }))

/-- The amended description of the VoiceChatInterface text pipeline,
written from the amendment words: exactly the prior entries whose status
is not error. -/
def claimedHistoryErrorOnly (prior : List Message) : List ChatMsg :=
  formatConversationHistory
    ((prior.filter (fun m => decide (m.status ≠ some MsgStatus.error))).map
      (fun m => { content := m.content, sender := m.sender }))

/-- Component state relevant to the begin-recording guard of
VoiceChatInterface: session state, the isRecording flag, and the buffered
audio chunks. -/
structure InterfaceState where
  voiceState : VoiceState
  isRecording : Bool
  audioChunks : Nat
  deriving DecidableEq, Repr

/-- Guard of handleStartRecording (VoiceChatInterface.tsx lines 541-546):
the request is dropped when already recording or when the state is
processing, speaking, or error. -/
def startRecordingRejected (s : InterfaceState) : Bool :=
  s.isRecording || decide (s.voiceState = VoiceState.processing) ||
    decide (s.voiceState = VoiceState.speaking) ||
    decide (s.voiceState = VoiceState.error)

/-- handleStartRecording (VoiceChatInterface.tsx lines 539-599) up to the
recorder actions: a rejected request returns with nothing changed; an
accepted one clears the chunk buffer and proceeds to initialize/start the
recorder (the Boolean result). -/
def handleStartRecording (s : InterfaceState) : InterfaceState × Bool :=
  if startRecordingRejected s then (s, false)
  else ({ s with audioChunks := 0 }, true)

/-- canRecord (use-voice-state.ts line 89): recording is possible in the
idle and error states. -/
def canRecord (st : VoiceState) : Bool :=
  decide (st = VoiceState.idle) || decide (st = VoiceState.error)

/-- handleStartRecording of the VoiceChat variant (part_004 lines 73-84):
rejected unless `canRecord` holds and no recording is in progress;
accepted requests move the session to recording. -/
def handleStartRecordingVC (st : VoiceState) (isRecording : Bool) :
    VoiceState × Bool :=
  if !canRecord st || isRecording then (st, false)
  else (VoiceState.recording, true)

/-- The acceptance condition the claim states: session state idle or error
and no recording in progress. -/
def claimedStartAccept (st : VoiceState) (isRecording : Bool) : Prop :=
  (st = VoiceState.idle ∨ st = VoiceState.error) ∧ isRecording = false

/-- Chat-level state touched by handleSendMessage: the entry list and the
session state. -/
structure ChatState where
  messages : List Message
  voiceState : VoiceState
  deriving DecidableEq, Repr

/-- The guarded prefix of handleSendMessage in VoiceChatInterface
(lines 257-285): a blank message returns immediately (line 258), a missing
API key raises the error state, and otherwise the pending user entry is
appended and the session enters processing; the Boolean records whether the
backend request is issued. -/
def handleSendMessagePrefix (message : String) (apiKeyPresent : Bool)
    (s : ChatState) : ChatState × Bool :=
  if jsTrim message = "" then (s, false)
  else if !apiKeyPresent then
    ({ s with voiceState := VoiceState.error }, false)
  else
    ({ messages := s.messages ++
        [{ content := message, sender := Sender.user,
           status := some MsgStatus.sending, errorMessage := none }],
       voiceState := VoiceState.processing }, true)

/-- The guarded prefix of handleSendMessage in the VoiceChat variant
(part_004 lines 150-161): a blank message returns immediately, otherwise
the session enters processing and the pending user entry is added. -/
def handleSendMessageVC (message : String) (s : ChatState) :
    ChatState × Bool :=
  if jsTrim message = "" then (s, false)
  else
    ({ messages := s.messages ++
        [{ content := message, sender := Sender.user,
           status := some MsgStatus.sending, errorMessage := none }],
       voiceState := VoiceState.processing }, true)

/-- The normalized chat-completion result (part_006 lines 96-101). -/
structure GPT4oResponse where
  text : String
  audioData : Option String
  deriving DecidableEq, Repr

/-- The normalized audio-workflow result (part_006 lines 106-113). -/
structure GPT4oAudioResponse where
  transcription : String
  textResponse : String
  audioData : Option String
  deriving DecidableEq, Repr

/-- The error message thrown on an empty or blank transcription
(openai.ts lines 166-170 / part_006 lines 431-435). -/
def emptyTranscriptionMessage : String :=
  "Could not transcribe audio. Please try speaking more clearly."

/-- sendAudioToGPT4o (part_006 lines 417-455, same logic in openai.ts
lines 146-194), with the Whisper call abstracted as the outcome
`transcribeResult` and the chat-completion call as the oracle `respond`.
The Boolean records whether the respond request was issued. -/
def sendAudioToGPT4o (transcribeResult : Except String String)
    (respond : String → Except String GPT4oResponse) :
    Except String GPT4oAudioResponse × Bool :=
  match transcribeResult with
  | Except.error e => (Except.error e, false)
  | Except.ok transcription =>
      if transcription = "" ∨ jsTrim transcription = "" then
        (Except.error emptyTranscriptionMessage, false)
      else
        match respond transcription with
        | Except.error e => (Except.error e, true)
        | Except.ok r =>
            (Except.ok { transcription := transcription,
                         textResponse := r.text,
                         audioData := r.audioData }, true)

/-- The placeholder user entry appended at the start of an audio turn
(VoiceChatInterface.tsx lines 131-137). -/
def processingPlaceholder : Message :=
  { content := "Processing your audio...", sender := Sender.user,
    status := some MsgStatus.sending, errorMessage := none }

/-- Observable outcome of one audio turn: the final entry list and the
session states entered during the turn, in order. -/
structure TurnOutcome where
  messages : List Message
  states : List VoiceState
  deriving DecidableEq, Repr

/-- processAudioAndGetResponse of VoiceChatInterface (lines 116-254),
from appending the placeholder to applying the dispatcher outcome, with
playback abstracted away.  On success (lines 161-195) the pending user
entry is finalized with the transcription and an assistant entry is
appended before the state moves to speaking; on failure, handleApiError
(lines 82-113) marks the pending entry with status error and the failure
detail and sets the session state to error — no assistant entry is
appended. -/
def processAudioTurn (prior : List Message)
    (dispatch : Except String GPT4oAudioResponse) : TurnOutcome :=
  match dispatch with
  | Except.ok r =>
      { messages := prior ++
          [{ content := r.transcription, sender := Sender.user,
             status := some MsgStatus.sent, errorMessage := none },
           { content := r.textResponse, sender := Sender.ai,
             status := some MsgStatus.sent, errorMessage := none }],
        states := [VoiceState.processing, VoiceState.speaking] }
  | Except.error e =>
      { messages := prior ++
          [{ processingPlaceholder with
              status := some MsgStatus.error, errorMessage := some e }],
        states := [VoiceState.processing, VoiceState.error] }

/-- Keys of the object literal returned by createSpeechController
(speech-synthesis.service.ts lines 193-226); speak (lines 237-250) returns
this controller synchronously, not a Promise. -/
def speechControllerFieldNames : List String :=
  ["start", "pause", "resume", "stop", "onEnd", "onError"]

/-- Whether the value returned by the speech-synthesis service speak has a
callable `then` member: property access on the controller object yields
undefined for any key outside its field list. -/
def speakResultHasThen : Bool :=
  speechControllerFieldNames.contains "then"

/-- Observable outcome of the response-playback code: invocations of the
speech-output device, done signals (transitions the player performs out of
speaking), whether backend audio was played, the session state the player
leaves behind, and whether a TypeError escaped the player. -/
structure PlaybackResult where
  speechOutputCalls : Nat
  doneSignals : Nat
  audioPlayed : Bool
  finalState : VoiceState
  typeErrorThrown : Bool
  deriving DecidableEq, Repr

/-- fallbackToTextToSpeech (VoiceChatInterface.tsx lines 61-79).  When
speech synthesis is supported it evaluates
`textToSpeech.speak(text).then(...)` where `speak` is the service function
returning the controller object synchronously; the `then` member is
undefined, so the call raises a TypeError before any speech output or done
signal.  When unsupported, a 3000 ms simulated wait ends with one done
signal back to idle. -/
def fallbackToTextToSpeech (ttsSupported : Bool) : PlaybackResult :=
  if ttsSupported then
    if speakResultHasThen then
      { speechOutputCalls := 1, doneSignals := 1, audioPlayed := false,
        finalState := VoiceState.idle, typeErrorThrown := false }
    else
      { speechOutputCalls := 0, doneSignals := 0, audioPlayed := false,
        finalState := VoiceState.speaking, typeErrorThrown := true }
  else
    { speechOutputCalls := 0, doneSignals := 1, audioPlayed := false,
      finalState := VoiceState.idle, typeErrorThrown := false }

/-- The playback section of processAudioAndGetResponse (lines 197-235),
entered in state speaking.  `decodeOk` is whether atob and blob
construction succeed, `playOk` whether `audio.play()` resolves.  A
TypeError raised inside the `audio.play().catch` handler (line 217) is an
unhandled promise rejection — it reaches no catch block and no state
change happens; a TypeError raised in the decode catch block (line 230) or
in the no-audio branch (line 234) propagates to the catch at line 241,
which routes through handleApiError into the error state. -/
def responsePlayer (audioData : Option String)
    (decodeOk playOk ttsSupported : Bool) : PlaybackResult :=
  match audioData with
  | some _ =>
      if decodeOk then
        if playOk then
          { speechOutputCalls := 0, doneSignals := 1, audioPlayed := true,
            finalState := VoiceState.idle, typeErrorThrown := false }
        else
          let f := fallbackToTextToSpeech ttsSupported
          if f.typeErrorThrown then
            { f with finalState := VoiceState.speaking }
          else f
      else
        let f := fallbackToTextToSpeech ttsSupported
        if f.typeErrorThrown then
          { f with finalState := VoiceState.error }
        else f
  | none =>
      let f := fallbackToTextToSpeech ttsSupported
      if f.typeErrorThrown then
        { f with finalState := VoiceState.error }
      else f

/-- MediaRecorder states (recorder.service.ts line 46). -/
inductive RecorderDeviceState where
  | inactive
  | recording
  | paused
  deriving DecidableEq, Repr

/-- Closure variables of createAudioRecorder (recorder.service.ts
lines 197-199); `mediaRecorder = none` models the null handle. -/
structure RecorderClosure where
  mediaRecorder : Option RecorderDeviceState
  audioChunks : Nat
  stream : Bool
  deriving DecidableEq, Repr

/-- Device calls a recorder cleanup can make. -/
inductive RecorderAction where
  | mediaRecorderStop
  | tracksStop
  deriving DecidableEq, Repr

/-- cleanup (recorder.service.ts lines 244-256).  Optional chaining makes
every step total: with a null handle, `mediaRecorder?.state !== "inactive"`
is true (undefined) but `mediaRecorder?.stop()` is a no-op.  Returns the
new closure and the device calls made. -/
def recorderCleanup (s : RecorderClosure) :
    RecorderClosure × List RecorderAction :=
  let stopActs :=
    match s.mediaRecorder with
    | some st =>
        if st ≠ RecorderDeviceState.inactive
        then [RecorderAction.mediaRecorderStop] else []
    | none => []
  let trackActs := if s.stream then [RecorderAction.tracksStop] else []
  ({ mediaRecorder := none, audioChunks := 0, stream := false },
   stopActs ++ trackActs)

/-- getState (recorder.service.ts lines 261-263): null when the handle is
gone. -/
def recorderGetState (s : RecorderClosure) : Option RecorderDeviceState :=
  s.mediaRecorder

/-- AudioContext lifecycle states relevant to cleanup. -/
inductive AudioContextState where
  | running
  | closed
  deriving DecidableEq, Repr

/-- Full closure of createSilenceDetector (silence-detector.service.ts
lines 227-236), as touched by stop() and cleanup(). -/
structure DetectorResources where
  audioContext : Option AudioContextState
  analyzer : Bool
  microphone : Bool
  stream : Bool
  checkIntervalTimer : Option Nat
  silenceTimer : Option Nat
  isSilent : Bool
  isInitialized : Bool
  isRunning : Bool
  silenceDetectedFlag : Bool
  deriving DecidableEq, Repr

/-- Device calls the detector stop/cleanup can make. -/
inductive DetectorAction where
  | clearSamplingInterval
  | clearSilenceTimeout
  | disconnectMicrophone
  | closeAudioContext
  | stopStreamTracks
  deriving DecidableEq, Repr

/-- stop() on the full closure (lines 307-319). -/
def detectorStopResources (s : DetectorResources) :
    DetectorResources × List DetectorAction :=
  let a1 := if s.checkIntervalTimer.isSome
            then [DetectorAction.clearSamplingInterval] else []
  let a2 := if s.silenceTimer.isSome
            then [DetectorAction.clearSilenceTimeout] else []
  ({ s with isRunning := false, checkIntervalTimer := none,
            silenceTimer := none }, a1 ++ a2)

/-- cleanup() (lines 324-350): stop, release the microphone, analyzer,
audio context (closed only if not already closed) and stream, and reset
`isInitialized` and `silenceDetectedFlag` (note `isSilent` is left
untouched by the source). -/
def detectorCleanup (s : DetectorResources) :
    DetectorResources × List DetectorAction :=
  let r := detectorStopResources s
  let s1 := r.1
  let a2 := if s1.microphone then [DetectorAction.disconnectMicrophone] else []
  let a3 :=
    match s1.audioContext with
    | some st =>
        if st ≠ AudioContextState.closed
        then [DetectorAction.closeAudioContext] else []
    | none => []
  let a4 := if s1.stream then [DetectorAction.stopStreamTracks] else []
  ({ audioContext := none, analyzer := false, microphone := false,
     stream := false, checkIntervalTimer := none, silenceTimer := none,
     isSilent := s1.isSilent, isInitialized := false, isRunning := false,
     silenceDetectedFlag := false }, r.2 ++ a2 ++ a3 ++ a4)

/-- The audio object of a chat-completion choice message (openai.ts
lines 18-23). -/
structure AudioObject where
  data : Option String
  transcript : Option String
  deriving DecidableEq, Repr

/-- The message of the first chat-completion choice (openai.ts line 288). -/
structure ChoiceMessage where
  content : String
  audio : Option AudioObject
  deriving DecidableEq, Repr

/-- The transcript-preference text extraction of sendMessageToGPT4o
(openai.ts lines 290-304; identically parseChatCompletionResponse,
part_006 lines 353-366): a non-blank audio transcript wins over the
content; otherwise a non-blank content; otherwise the empty string. -/
def extractTextResponse (m : ChoiceMessage) : String :=
  match m.audio with
  | some a =>
      match a.transcript with
      | some t =>
          if jsTrim t ≠ "" then jsTrim t
          else if jsTrim m.content ≠ "" then jsTrim m.content
          else ""
      | none =>
          if jsTrim m.content ≠ "" then jsTrim m.content else ""
  | none =>
      if jsTrim m.content ≠ "" then jsTrim m.content else ""

/-- Whether the choice message carries a non-blank audio transcript (the
condition of openai.ts lines 293-297). -/
def hasNonblankTranscript (m : ChoiceMessage) : Bool :=
  match m.audio with
  | some a =>
      match a.transcript with
      | some t => jsTrim t ≠ ""
      | none => false
  | none => false

/-- Audio payload extraction `messageChoice.audio?.data || null` (openai.ts
line 306): an empty data string is falsy and becomes null. -/
def extractAudioData (m : ChoiceMessage) : Option String :=
  match m.audio with
  | some a =>
      match a.data with
      | some d => if d = "" then none else some d
      | none => none
  | none => none

/-- The error message thrown when neither text nor audio was extracted
(openai.ts line 309). -/
def noResponseMessage : String := "No response received from API"

/-- The result extraction of sendMessageToGPT4o (openai.ts lines 288-319):
throws when both the extracted text is empty and no audio data is present,
otherwise returns both. -/
def extractGPT4oResponse (m : ChoiceMessage) :
    Except String GPT4oResponse :=
  if extractTextResponse m = "" ∧ extractAudioData m = none then
    Except.error noResponseMessage
  else
    Except.ok { text := extractTextResponse m, audioData := extractAudioData m }

/-! ## Theorems -/

/-! ### Invariants of the part_000 detector (supporting lemmas) -/

theorem legacyInv_start : legacyInv legacyStart := by
  simp [legacyInv, legacyStart, legacySilenceCount]

theorem legacyInv_fire (s : LegacyState) (f : Nat) (h : legacyInv s) :
    legacyInv (legacyFire s f) := by
  unfold legacyInv legacyFire legacySilenceCount at *
  by_cases hr : s.isRunning && !s.silenceDetectedFlag
  · simp only [hr, if_true]
    simp only [Bool.and_eq_true, Bool.not_eq_true'] at hr
    simpa [List.filter_append, hr.2] using h
  · simpa [hr] using h

theorem legacyInv_due (now : Nat) (s : LegacyState) (h : legacyInv s) :
    legacyInv (legacyDue now s) := by
  unfold legacyDue
  cases hT : s.silenceTimer with
  | none => exact h
  | some f =>
      by_cases hf : f < now
      · simpa [hf] using legacyInv_fire s f h
      · simpa [hf] using h

theorem legacyInv_sample (opts : DetectorOptions) (now : Nat) (level : ℚ)
    (s : LegacyState) (h : legacyInv s) :
    legacyInv (legacySample opts now level s) := by
  unfold legacySample
  by_cases hrun : !s.isRunning
  · simpa [hrun] using h
  · simp only [hrun, if_false]
    by_cases hsil : isAudioSilent level opts.silenceThreshold
    · simp only [hsil, if_true]
      by_cases hq : !s.isSilent
      · simp only [hq, if_true]
        by_cases hd : opts.silenceDuration = 0
        · simp only [hd, if_true]
          by_cases hg : s.isRunning && !s.silenceDetectedFlag
          · simp only [hg, if_true]
            simp only [Bool.and_eq_true, Bool.not_eq_true'] at hg
            unfold legacyInv legacySilenceCount at *
            simpa [List.filter_append, hg.2] using h
          · simpa [hg, legacyInv, legacySilenceCount] using h
        · simpa [hd, legacyInv, legacySilenceCount] using h
      · simpa [hq] using h
    · simp only [hsil, if_false]
      by_cases hq : s.isSilent
      · unfold legacyInv legacySilenceCount at *
        simpa [hq, List.filter_append] using h
      · simpa [hq] using h

theorem legacyInv_tick (opts : DetectorOptions) (now : Nat) (level : ℚ)
    (s : LegacyState) (h : legacyInv s) :
    legacyInv (legacyTick opts now level s) :=
  legacyInv_sample opts now level _ (legacyInv_due now s h)

theorem legacyInv_foldl (opts : DetectorOptions)
    (l : List (Nat × ℚ)) (s : LegacyState) (h : legacyInv s) :
    legacyInv (l.foldl
      (fun s p => legacyTick opts ((p.1 + 1) * opts.checkInterval) p.2 s) s) := by
  induction l generalizing s with
  | nil => exact h
  | cons p l ih => exact ih _ (legacyInv_tick opts _ _ s h)

theorem legacyInv_drain (s : LegacyState) (h : legacyInv s) :
    legacyInv (legacyDrain s) := by
  unfold legacyDrain
  cases hT : s.silenceTimer with
  | none => exact h
  | some f => exact legacyInv_fire s f h

/-- The part_000 detector satisfies the at-most-once contract: over any
sample sequence, even after every armed timeout is allowed to fire, the
speech-ended edge occurs at most once per run. -/
theorem legacy_silence_at_most_once (opts : DetectorOptions)
    (samples : List ℚ) :
    legacySilenceCount (legacyDrain (legacyRun opts samples)) ≤ 1 := by
  have h := legacyInv_drain _
    (legacyInv_foldl opts samples.enum legacyStart legacyInv_start)
  unfold legacyInv at h
  rw [legacyRun]
  rw [h]
  split <;> omega

/-- After part_000 stop(), no armed timeout remains, so nothing can fire
the silence callback later. -/
theorem legacy_no_fire_after_stop (s : LegacyState) :
    legacyDrain (legacyStop s) = legacyStop s := by
  simp [legacyDrain, legacyStop]

/-! ### Claims C1, C2, C3: the shipped detector violates the edge contract -/

set_option maxRecDepth 100000 in
/-- C1.  The claim — at most one `onSilenceDetected` per run and no
callback after `stop()` — is violated: with the default options, two
sub-threshold samples arm two independent 5000 ms timers and both fire
(two silence callbacks in one run); and after `stop()` is called the timer
armed at the first tick (t = 100 ms, due t = 5100 ms) is not the one
referenced by the closure variable, survives the `clearTimeout` in
`stop()`, and still fires its callback. -/
theorem c1_silence_callback_repeats_and_fires_after_stop :
    silenceEventCount
      (drainTimers (runSamples defaultOpts [mkRat 1 100, mkRat 1 100])) = 2 ∧
    ((drainTimers (detectorStop
        (runSamples defaultOpts [mkRat 1 100, mkRat 1 100]))).closure.isRunning
        = false ∧
      (drainTimers (detectorStop
        (runSamples defaultOpts [mkRat 1 100, mkRat 1 100]))).events
        = [(5100, DetectorEvent.silenceDetected)]) := by
  refine ⟨by decide, by decide, by decide⟩

set_option maxRecDepth 100000 in
/-- C2.  On the spec scenario (threshold 0.05, silenceDuration 5000 ms,
checkInterval 100 ms; a period at level 0.5 followed by 50 consecutive
samples at level 0.01) the embedded service detector fires no silence
callback by the 50th sub-threshold tick (t = 5300 ms) and then fires
fifty of them (t = 5400 .. 10300 ms), one per leaked timer — not exactly
one at the 50th tick as claimed. -/
theorem c2_scenario_fires_fifty_not_once :
    silenceEventCount (runSamples defaultOpts scenarioLoudThenQuiet) = 0 ∧
    silenceEventCount
      (drainTimers (runSamples defaultOpts scenarioLoudThenQuiet)) = 50 ∧
    (drainTimers (runSamples defaultOpts scenarioLoudThenQuiet)).events.head?
      = some (5400, DetectorEvent.silenceDetected) := by
  refine ⟨by decide, by decide, by decide⟩

set_option maxRecDepth 100000 in
/-- C3.  On a sub-threshold sample followed by an above-threshold sample,
the claim requires exactly one speech-resumed edge; the embedded service
detector fires none (the `isSilent` write in `handleSilence` lands on a
per-tick copy, so `handleSpeech` always sees `isSilent = false`), while
the part_000 implementation of the same algorithm fires exactly one. -/
theorem c3_speech_resumed_never_fires :
    speechEventCount
      (drainTimers (runSamples defaultOpts [mkRat 1 100, mkRat 1 2])) = 0 ∧
    legacySpeechCount
      (legacyDrain (legacyRun defaultOpts [mkRat 1 100, mkRat 1 2])) = 1 := by
  refine ⟨by decide, by decide⟩

/-! ### Claim C4: the begin-recording guard -/

/-- C4 counterexample.  The claim accepts a begin-recording request in the
Error state with no recording in progress, but handleStartRecording of
VoiceChatInterface rejects it and changes nothing (its guard lists error
among the rejected states, lines 541-546). -/
theorem c4_error_state_request_refused :
    claimedStartAccept VoiceState.error false ∧
    handleStartRecording
        { voiceState := VoiceState.error, isRecording := false,
          audioChunks := 5 }
      = ({ voiceState := VoiceState.error, isRecording := false,
           audioChunks := 5 }, false) :=
  ⟨⟨Or.inr rfl, rfl⟩, rfl⟩

/-- C4 amended.  In VoiceChatInterface a begin-recording request is
accepted exactly when no recording is in progress and the state is neither
processing, speaking nor error (so error-state requests are no-ops there);
in the VoiceChat variant it is accepted exactly when the state is idle or
error and no recording is in progress.  Rejected requests change
nothing. -/
theorem c4_start_recording_guards (s : InterfaceState) (st : VoiceState)
    (rec : Bool) :
    ((handleStartRecording s).2 = true ↔
      s.isRecording = false ∧ s.voiceState ≠ VoiceState.processing ∧
      s.voiceState ≠ VoiceState.speaking ∧ s.voiceState ≠ VoiceState.error) ∧
    ((handleStartRecording s).2 = false → (handleStartRecording s).1 = s) ∧
    ((handleStartRecordingVC st rec).2 = true ↔ claimedStartAccept st rec) ∧
    ((handleStartRecordingVC st rec).2 = false →
      (handleStartRecordingVC st rec).1 = st) := by
  obtain ⟨sv, sr, sc⟩ := s
  refine ⟨?_, ?_, ?_, ?_⟩
  · cases sv <;> cases sr <;>
      simp [handleStartRecording, startRecordingRejected]
  · cases sv <;> cases sr <;>
      simp [handleStartRecording, startRecordingRejected]
  · cases st <;> cases rec <;>
      simp [handleStartRecordingVC, canRecord, claimedStartAccept]
  · cases st <;> cases rec <;>
      simp [handleStartRecordingVC, canRecord]

/-- C4 witness: the amended guard theorem applied at concrete inputs — an
idle-state request is accepted by VoiceChatInterface, and an error-state
request is accepted by the VoiceChat variant. -/
theorem c4_start_recording_guards_witness :
    (handleStartRecording
        { voiceState := VoiceState.idle, isRecording := false,
          audioChunks := 0 }).2 = true ∧
    (handleStartRecordingVC VoiceState.error false).2 = true :=
  ⟨((c4_start_recording_guards
        { voiceState := VoiceState.idle, isRecording := false,
          audioChunks := 0 } VoiceState.error false).1).mpr (by decide),
   ((c4_start_recording_guards
        { voiceState := VoiceState.idle, isRecording := false,
          audioChunks := 0 } VoiceState.error false).2.2.1).mpr
      ⟨Or.inr rfl, rfl⟩⟩

/-! ### Claim C5: history filtering in the two pipelines -/

/-- C5 counterexample.  With a single prior entry of status sending, the
claim requires both pipelines to exclude it, but the text pipeline of
VoiceChatInterface keeps it (the filter at lines 288-295 only excludes
error entries) while the audio pipeline excludes it. -/
theorem c5_text_pipeline_keeps_sending_entry :
    textPipelineHistory
        [{ content := "hi", sender := Sender.user,
           status := some MsgStatus.sending, errorMessage := none }]
      = [{ role := Role.user, content := "hi" }] ∧
    audioPipelineHistory
        [{ content := "hi", sender := Sender.user,
           status := some MsgStatus.sending, errorMessage := none }] = [] ∧
    textPipelineHistory
        [{ content := "hi", sender := Sender.user,
           status := some MsgStatus.sending, errorMessage := none }]
      ≠ claimedHistory
        [{ content := "hi", sender := Sender.user,
           status := some MsgStatus.sending, errorMessage := none }] := by
  refine ⟨by decide, by decide, by decide⟩

/-- C5 amended.  The audio pipeline of VoiceChatInterface and both
pipelines of the VoiceChat variant send exactly the prior entries whose
status is neither sending nor error; the text pipeline of
VoiceChatInterface excludes only entries with status error, so prior
sending entries are included there. -/
theorem c5_history_filters (prior : List Message) :
    audioPipelineHistory prior = claimedHistory prior ∧
    vcPipelineHistory prior = claimedHistory prior ∧
    textPipelineHistory prior = claimedHistoryErrorOnly prior := by
  have hboth : prior.filter (fun m =>
        !decide (m.status = some MsgStatus.sending) &&
        !decide (m.status = some MsgStatus.error))
      = prior.filter (fun m =>
        decide (m.status ≠ some MsgStatus.sending ∧
                m.status ≠ some MsgStatus.error)) := by
    apply List.filter_congr
    intro m _
    by_cases h1 : m.status = some MsgStatus.sending <;>
      by_cases h2 : m.status = some MsgStatus.error <;> simp [h1, h2]
  have herr : prior.filter (fun m => !decide (m.status = some MsgStatus.error))
      = prior.filter (fun m => decide (m.status ≠ some MsgStatus.error)) := by
    apply List.filter_congr
    intro m _
    by_cases h2 : m.status = some MsgStatus.error <;> simp [h2]
  refine ⟨?_, ?_, ?_⟩
  · unfold audioPipelineHistory claimedHistory
    rw [hboth]
  · unfold vcPipelineHistory claimedHistory
    rw [hboth]
  · unfold textPipelineHistory claimedHistoryErrorOnly
    rw [herr]

/-! ### Claim C6: empty transcription ends the turn in the error state -/

/-- C6.  When the transcription call succeeds with a blank string, the
audio pipeline fails with the empty-transcription error without issuing the
respond request, the pending user entry is marked error with the failure
detail, no assistant entry is appended, and the turn visits processing and
then error — never speaking. -/
theorem c6_empty_transcription (prior : List Message)
    (respond : String → Except String GPT4oResponse) (t : String)
    (h : jsTrim t = "") :
    sendAudioToGPT4o (Except.ok t) respond
      = (Except.error emptyTranscriptionMessage, false) ∧
    (processAudioTurn prior (sendAudioToGPT4o (Except.ok t) respond).1).states
      = [VoiceState.processing, VoiceState.error] ∧
    VoiceState.speaking ∉
      (processAudioTurn prior (sendAudioToGPT4o (Except.ok t) respond).1).states ∧
    (processAudioTurn prior (sendAudioToGPT4o (Except.ok t) respond).1).messages
      = prior ++
        [{ content := "Processing your audio...", sender := Sender.user,
           status := some MsgStatus.error,
           errorMessage := some emptyTranscriptionMessage }] := by
  have hd : sendAudioToGPT4o (Except.ok t) respond
      = (Except.error emptyTranscriptionMessage, false) := by
    simp only [sendAudioToGPT4o]
    rw [if_pos (Or.inr h)]
  refine ⟨hd, ?_, ?_, ?_⟩ <;> rw [hd] <;>
    simp [processAudioTurn, processingPlaceholder]

/-- C6 witness: the theorem applied to a whitespace transcription with an
oracle that would have answered successfully. -/
theorem c6_empty_transcription_witness :
    jsTrim " " = "" ∧
    sendAudioToGPT4o (Except.ok " ")
        (fun _ => Except.ok { text := "ok", audioData := none })
      = (Except.error emptyTranscriptionMessage, false) :=
  ⟨by decide,
   (c6_empty_transcription []
      (fun _ => Except.ok { text := "ok", audioData := none }) " "
      (by decide)).1⟩

/-! ### Claim C7: the response player and its fallback -/

/-- C7.  The audio-success path conforms (audio played, no speech output,
one done signal back to idle), but when playback fails with speech
synthesis supported the fallback raises a TypeError — `speak` of the
speech-synthesis service returns its controller synchronously and has no
`then` member — so the speech-output device is never invoked and no done
signal is emitted (the session stays in speaking); with no backend audio
the same TypeError propagates to the api-error handler and the turn ends
in error instead of one speech output and one done signal. -/
theorem c7_playback_fallback_type_error :
    responsePlayer (some "UklGRg==") true true true
      = { speechOutputCalls := 0, doneSignals := 1, audioPlayed := true,
          finalState := VoiceState.idle, typeErrorThrown := false } ∧
    responsePlayer (some "UklGRg==") true false true
      = { speechOutputCalls := 0, doneSignals := 0, audioPlayed := false,
          finalState := VoiceState.speaking, typeErrorThrown := true } ∧
    responsePlayer none true true true
      = { speechOutputCalls := 0, doneSignals := 0, audioPlayed := false,
          finalState := VoiceState.error, typeErrorThrown := true } := by
  refine ⟨by decide, by decide, by decide⟩

/-! ### Claim C8: blank text submissions are rejected -/

/-- C8.  A message that is empty or whitespace-only is rejected by the
leading guard of handleSendMessage in both variants: no entry is created,
no backend request is issued, and the state is unchanged. -/
theorem c8_blank_submit_rejected (s : ChatState) (message : String)
    (apiKeyPresent : Bool) (h : jsTrim message = "") :
    handleSendMessagePrefix message apiKeyPresent s = (s, false) ∧
    handleSendMessageVC message s = (s, false) := by
  unfold handleSendMessagePrefix handleSendMessageVC
  rw [if_pos h, if_pos h]
  exact ⟨rfl, rfl⟩

/-- C8 witness: the theorem applied to a three-space message in the idle
state. -/
theorem c8_blank_submit_rejected_witness :
    jsTrim "   " = "" ∧
    handleSendMessagePrefix "   " true
        { messages := [], voiceState := VoiceState.idle }
      = ({ messages := [], voiceState := VoiceState.idle }, false) :=
  ⟨by decide,
   (c8_blank_submit_rejected { messages := [], voiceState := VoiceState.idle }
      "   " true (by decide)).1⟩

/-! ### Claim C9: cleanup is idempotent -/

/-- C9.  Cleanup on the capture session and on the metering detector is
idempotent: a second cleanup call makes no device calls, changes nothing,
and both times leaves the recorder handle null (state null/inactive) and
the detector uninitialized and not running.  Both cleanups are total
functions of the closure, so no call can raise. -/
theorem c9_cleanup_idempotent (r : RecorderClosure) (d : DetectorResources) :
    recorderCleanup (recorderCleanup r).1 = ((recorderCleanup r).1, []) ∧
    recorderGetState (recorderCleanup r).1 = none ∧
    detectorCleanup (detectorCleanup d).1 = ((detectorCleanup d).1, []) ∧
    (detectorCleanup d).1.isInitialized = false ∧
    (detectorCleanup d).1.isRunning = false := by
  refine ⟨rfl, rfl, ?_, rfl, rfl⟩
  cases d
  rfl

/-! ### Claim C10: transcript preference in the response extraction -/

/-- C10.  sendMessageToGPT4o returns the trimmed audio transcript whenever
the choice message carries a non-blank transcript (preferring it over the
content), otherwise the trimmed content; and when the extracted text is
empty and no audio data is present it throws the no-response error,
otherwise it returns the extracted pair. -/
theorem c10_transcript_preference (m : ChoiceMessage) :
    (∀ a t, m.audio = some a → a.transcript = some t → jsTrim t ≠ "" →
        extractTextResponse m = jsTrim t) ∧
    (hasNonblankTranscript m = false →
        extractTextResponse m = jsTrim m.content) ∧
    (extractTextResponse m = "" → extractAudioData m = none →
        extractGPT4oResponse m = Except.error noResponseMessage) ∧
    (¬ (extractTextResponse m = "" ∧ extractAudioData m = none) →
        extractGPT4oResponse m
          = Except.ok { text := extractTextResponse m,
                        audioData := extractAudioData m }) := by
  refine ⟨?_, ?_, ?_, ?_⟩
  · intro a t ha ht hnb
    simp only [extractTextResponse, ha, ht]
    rw [if_pos hnb]
  · intro h
    cases hA : m.audio with
    | none =>
        simp only [extractTextResponse, hA]
        by_cases hc : jsTrim m.content = ""
        · rw [if_neg (by simpa using hc), hc]
        · rw [if_pos hc]
    | some a =>
        cases hT : a.transcript with
        | none =>
            simp only [extractTextResponse, hA, hT]
            by_cases hc : jsTrim m.content = ""
            · rw [if_neg (by simpa using hc), hc]
            · rw [if_pos hc]
        | some t =>
            have hb : jsTrim t = "" := by
              have h2 := h
              simp only [hasNonblankTranscript, hA, hT] at h2
              simpa using h2
            simp only [extractTextResponse, hA, hT]
            rw [if_neg (by simpa using hb)]
            by_cases hc : jsTrim m.content = ""
            · rw [if_neg (by simpa using hc), hc]
            · rw [if_pos hc]
  · intro h1 h2
    unfold extractGPT4oResponse
    rw [if_pos ⟨h1, h2⟩]
  · intro h
    unfold extractGPT4oResponse
    rw [if_neg h]

/-- C10 witness: a message whose audio transcript is non-blank yields the
trimmed transcript even though content is present, and a message with
blank content and no audio throws the no-response error. -/
theorem c10_transcript_preference_witness :
    extractTextResponse
        { content := "content text",
          audio := some { data := some "QUJD", transcript := some " hi " } }
      = "hi" ∧
    extractGPT4oResponse { content := " ", audio := none }
      = Except.error noResponseMessage :=
  ⟨((c10_transcript_preference
      { content := "content text",
        audio := some { data := some "QUJD", transcript := some " hi " } }).1
      { data := some "QUJD", transcript := some " hi " } " hi " rfl rfl
      (by decide)).trans (by decide),
   (c10_transcript_preference { content := " ", audio := none }).2.2.1
      (by decide) (by decide)⟩

end Voicebot
